import Mathlib

/-!
# Verification of the doc-gpt medical pipeline

A shallow embedding of the doc-gpt repository's core pipeline:

* `lib/workflows/doctor-gpt-workflow.ts` — the LangGraph orchestrator
  (`DoctorGPTWorkflow`): nodes, routing functions and the compiled graph.
* `langchain-nextjs-template/lib/models/repository.ts` — `ModelRepository`
  consensus engine (`multiModelReasoning`, `analyzeConsensus`,
  `findDisagreements`, `createFinalResponse`).
* `langchain-nextjs-template/lib/search/tavily.ts` — `TavilySearchService`
  (domain reliability scoring, trusted-domain check, result filtering,
  citation conversion).
* `lib/cost-tracking/tracker.ts` — `CostTracker` (`trackCost`,
  `checkBudgetLimits`, `flushCosts`).
* `lib/medical/medical-data-service.ts` together with the Qdrant service —
  dual-partition evidence retrieval (`queryMedicalKnowledge`).

Conventions of the embedding:

* JavaScript numbers are modelled as exact rationals `ℚ`; all arithmetic in
  the relevant code paths is on small decimal constants where binary
  floating point and exact arithmetic agree on every comparison performed.
* A JavaScript function that can `throw` is modelled with `Except String`
  (or a structured error type); `Option` models `undefined`/missing fields.
* The platform URL parser (`new URL(url).hostname`) is external to the
  repository; a URL string is therefore carried together with the result of
  parsing it, as `host : Option String` (`none` = the constructor throws).
* External collaborators (providers, Qdrant, Prisma, Tavily transport) are
  oracle parameters supplying the results of the corresponding `await`s.
* JavaScript truthiness: `x || y` on numbers treats `0`/`undefined` as
  falsy, on strings treats `""`/`undefined` as falsy; modelled by the
  explicit `jsOr*` helpers below.
-/

/- Batteries marks the `Rat` field operations `@[irreducible]`; re-opening
them locally lets `decide` evaluate the embedding on concrete inputs. -/
attribute [local semireducible] Rat.ofScientific Rat.mul Rat.inv Rat.add Rat.sub

namespace DoctorGPT

/-! ## String helpers (substring / prefix / suffix tests, lower-casing)

`jsIncludes s pat` models JavaScript `s.includes(pat)`, `jsEndsWith` models
`String.prototype.endsWith`, `jsToLower` models `toLowerCase()` on the ASCII
strings appearing in the sources. -/

def isPrefixList : List Char → List Char → Bool
  | [], _ => true
  | _ :: _, [] => false
  | a :: as, b :: bs => a == b && isPrefixList as bs

def hasSubList (pat : List Char) : List Char → Bool
  | [] => isPrefixList pat []
  | c :: rest => isPrefixList pat (c :: rest) || hasSubList pat rest

def jsIncludes (s pat : String) : Bool :=
  hasSubList pat.data s.data

def jsEndsWith (s pat : String) : Bool :=
  isPrefixList pat.data.reverse s.data.reverse

def jsToLower (s : String) : String :=
  String.mk (s.data.map Char.toLower)

/-! ## JavaScript truthiness helpers -/

/-- `x || d` where `x : number | undefined` (`0` and `undefined` are falsy). -/
def jsOrQ (x : Option ℚ) (d : ℚ) : ℚ :=
  match x with
  | none => d
  | some v => if v = 0 then d else v

/-- `x || y` where both sides are `number | undefined`. -/
def jsOrQOpt (x y : Option ℚ) : Option ℚ :=
  match x with
  | none => y
  | some v => if v = 0 then y else some v

/-- `x || y` where both sides are `string | undefined` (`""` is falsy). -/
def jsOrStrOpt (x y : Option String) : Option String :=
  match x with
  | none => y
  | some s => if s = "" then y else some s

/-- Truthiness of a `number | undefined` value. -/
def jsTruthyQ (x : Option ℚ) : Bool :=
  match x with
  | none => false
  | some v => !(v = 0)

def isWhitespaceChar (c : Char) : Bool :=
  c == ' ' || c == '\t' || c == '\n' || c == '\r'

def dropLeadingWhitespace : List Char → List Char
  | [] => []
  | c :: rest =>
      if isWhitespaceChar c then dropLeadingWhitespace rest else c :: rest

/-- `String.prototype.trim` on the ASCII strings the sources handle. -/
def jsTrim (s : String) : String :=
  String.mk ((dropLeadingWhitespace
    (dropLeadingWhitespace s.data).reverse).reverse)

/-! ## TavilySearchService (tavily.ts)

`MEDICAL_DOMAINS` is the allow-list from the class body.  A URL string is
represented by the raw string together with `host : Option String`, the
outcome of `new URL(url).hostname` (`none` when the constructor throws). -/

def MEDICAL_DOMAINS : List String :=
  ["pubmed.ncbi.nlm.nih.gov", "www.ncbi.nlm.nih.gov", "clinicaltrials.gov",
   "www.who.int", "www.cdc.gov", "www.mayoclinic.org",
   "www.clevelandclinic.org", "www.hopkinsmedicine.org", "www.nih.gov",
   "www.medlineplus.gov", "www.uptodate.com", "www.nejm.org",
   "www.thelancet.com", "jamanetwork.com", "www.bmj.com", "www.nature.com",
   "www.sciencedirect.com", "scholar.google.com", "www.cochranelibrary.com",
   "guidelines.gov", "www.aafp.org", "www.acponline.org", "www.ama-assn.org"]

/-- `isTrustedMedicalDomain(url)`: parses the URL inside `try { ... } catch
{ return false }`, so a malformed URL yields `false`. -/
def isTrustedMedicalDomain (host : Option String) : Bool :=
  match host with
  | none => false
  | some domain =>
      MEDICAL_DOMAINS.any fun trusted =>
        domain == trusted || jsEndsWith domain ("." ++ trusted)

/-- `getSourceReliabilityScore(url)`: `new URL(url)` is NOT wrapped in
`try`/`catch`, so a malformed URL throws (`none`); a parsed hostname is
scored through the tier cascade. -/
def getSourceReliabilityScore (host : Option String) : Option ℚ :=
  match host with
  | none => none
  | some domain =>
      some
        (if jsIncludes domain "pubmed" || jsIncludes domain "nejm" ||
            jsIncludes domain "thelancet" || jsIncludes domain "bmj" then 0.95
         else if jsIncludes domain "nih.gov" || jsIncludes domain "cdc.gov" ||
            jsIncludes domain "fda.gov" then 0.9
         else if jsIncludes domain "mayoclinic" ||
            jsIncludes domain "clevelandclinic" ||
            jsIncludes domain "hopkinsmedicine" then 0.8
         else if jsIncludes domain "guidelines.gov" ||
            jsIncludes domain "cochranelibrary" then 0.85
         else if jsIncludes domain "uptodate" ||
            jsIncludes domain "medlineplus" then 0.7
         else 0.5)

/-! ## Citations (models/types.ts `Citation`) -/

structure Citation where
  id : String
  title : String
  url : String
  /-- Result of `new URL(url).hostname` for this citation's `url`. -/
  host : Option String
  relevanceScore : Option ℚ
  deriving DecidableEq, Repr

/-- One step of `enhanceCitations`' map:
`relevanceScore: citation.relevanceScore || getSourceReliabilityScore(citation.url)`.
A falsy `relevanceScore` forces the URL parse, which can throw. -/
def enhanceOneCitation (c : Citation) : Except String Citation :=
  if jsTruthyQ c.relevanceScore then .ok c
  else
    match getSourceReliabilityScore c.host with
    | none => .error "Invalid URL"
    | some sc => .ok { c with relevanceScore := some sc }

/-- `DoctorGPTWorkflow.enhanceCitations` (doctor-gpt-workflow.ts:789). -/
def enhanceCitations : List Citation → Except String (List Citation)
  | [] => .ok []
  | c :: rest =>
      match enhanceOneCitation c with
      | .error e => .error e
      | .ok c' =>
          match enhanceCitations rest with
          | .error e => .error e
          | .ok rest' => .ok (c' :: rest')

/-- `DoctorGPTWorkflow.calculateCitationQuality` (doctor-gpt-workflow.ts:759):
mean of the per-citation reliability scores; the reduce calls
`getSourceReliabilityScore` unconditionally, so a malformed URL throws. -/
def sumReliability : List Citation → Except String ℚ
  | [] => .ok 0
  | c :: rest =>
      match getSourceReliabilityScore c.host with
      | none => .error "Invalid URL"
      | some sc =>
          match sumReliability rest with
          | .error e => .error e
          | .ok s => .ok (sc + s)

def calculateCitationQuality (citations : List Citation) : Except String ℚ :=
  if citations.length = 0 then .ok 0
  else
    match sumReliability citations with
    | .error e => .error e
    | .ok s => .ok (s / citations.length)

/-! ## ModelRepository consensus engine (repository.ts)

`ProviderResp` models `MedicalResponse` as produced by a provider adapter and
by `createFinalResponse` (the free-form `metadata` bag is flattened to the
keys the repository writes: `providersUsed`, `consensus`). -/

structure ProviderResp where
  content : String
  confidence : Option ℚ
  citations : List Citation
  recommendedActions : List String
  medicalDisclaimer : Option String
  providersUsed : List String
  consensusReached : Bool
  deriving DecidableEq, Repr

/-- One element of `MultiModelResult['responses']`. -/
structure RespEntry where
  provider : String
  response : ProviderResp
  cost : ℚ
  responseTime : ℚ
  deriving DecidableEq, Repr

structure Consensus where
  agreedContent : String
  confidence : ℚ
  disagreements : List String
  deriving DecidableEq, Repr

/-- Splitting on single occurrences of `.`, `!`, `?`.  The source splits on
the regex `[.!?]+`; the only difference is empty segments between
consecutive separators, which the `length > 10` filter in `sentencesOf`
removes in both readings. -/
def splitSentencesAux (acc : List Char) : List Char → List String
  | [] => [String.mk acc.reverse]
  | c :: rest =>
      if c == '.' || c == '!' || c == '?' then
        String.mk acc.reverse :: splitSentencesAux [] rest
      else splitSentencesAux (c :: acc) rest

def sentencesOf (content : String) : List String :=
  ((splitSentencesAux [] content.data).map jsTrim).filter
    fun s => s.length > 10

/-- First-occurrence deduplication (JS `Map` insertion order / `new Set`). -/
def dedupFirstAux (seen : List String) : List String → List String
  | [] => []
  | s :: rest =>
      if seen.contains s then dedupFirstAux seen rest
      else s :: dedupFirstAux (s :: seen) rest

/-- `ModelRepository.findCommonPhrases` (repository.ts:487): sentences that
occur in more than one response, in first-insertion order. -/
def findCommonPhrases (contents : List String) : List String :=
  let allSentences := (contents.map sentencesOf).flatten
  (dedupFirstAux [] allSentences).filter fun s => allSentences.count s > 1

/-- The exact disagreement signal string pushed by `findDisagreements`. -/
def lengthSignal : String := "Response lengths vary significantly between models"

/-- The `lengths` array of `findDisagreements`. -/
def contentLengths (contents : List String) : List ℚ :=
  contents.map fun c => (c.length : ℚ)

/-- The `avgLength` of `findDisagreements`. -/
def avgLengthOf (contents : List String) : ℚ :=
  (contentLengths contents).sum / ((contentLengths contents).length : ℚ)

/-- `ModelRepository.findDisagreements` (repository.ts:511). -/
def findDisagreements (contents : List String) : List String :=
  let hasSignificantLengthDiff :=
    (contentLengths contents).any fun l =>
      decide (|l - avgLengthOf contents| > avgLengthOf contents * 0.5)
  if hasSignificantLengthDiff then [lengthSignal] else []

/-- `ModelRepository.analyzeConsensus` (repository.ts:429): `undefined` when
fewer than two providers answered. -/
def analyzeConsensus (responses : List RespEntry) : Option Consensus :=
  if responses.length < 2 then none
  else
    let contents := responses.map fun r => r.response.content
    let avgConfidence :=
      (responses.map fun r => jsOrQ r.response.confidence 0.5).sum /
        (responses.length : ℚ)
    some { agreedContent := String.intercalate " " (findCommonPhrases contents)
           confidence := avgConfidence
           disagreements := findDisagreements contents }

/-- `responses.reduce` picking the strictly-higher-confidence entry
(`confidence || 0`, accumulator starts at the first element). -/
def bestOf (first : RespEntry) (rest : List RespEntry) : RespEntry :=
  rest.foldl
    (fun best cur =>
      if jsOrQ cur.response.confidence 0 > jsOrQ best.response.confidence 0
      then cur else best)
    first

/-- First-occurrence deduplication of citations by their `url` string
(`arr.findIndex(c => c.url === citation.url) === index`). -/
def dedupByUrlAux (seen : List String) : List Citation → List Citation
  | [] => []
  | c :: rest =>
      if seen.contains c.url then dedupByUrlAux seen rest
      else c :: dedupByUrlAux (c.url :: seen) rest

/-- `ModelRepository.createFinalResponse` (repository.ts:449); the argument
list is split `first :: rest` because the source only calls it on a
non-empty response list. -/
def createFinalResponse (first : RespEntry) (rest : List RespEntry)
    (consensus : Option Consensus) : ProviderResp :=
  let bestResponse := bestOf first rest
  let base := bestResponse.response
  let all := first :: rest
  let allCitations := (all.map fun r => r.response.citations).flatten
  let allActions := (all.map fun r => r.response.recommendedActions).flatten
  { base with
    content :=
      match consensus with
      | some c => if c.agreedContent = "" then base.content else c.agreedContent
      | none => base.content
    confidence := jsOrQOpt (consensus.map fun c => c.confidence) base.confidence
    citations := dedupByUrlAux [] allCitations
    recommendedActions := dedupFirstAux [] allActions
    providersUsed := all.map fun r => r.provider
    consensusReached := consensus.isSome }

structure MMResult where
  responses : List RespEntry
  consensus : Option Consensus
  finalResponse : ProviderResp
  totalCost : ℚ
  deriving DecidableEq, Repr

/-- `ModelRepository.multiModelReasoning` (repository.ts:263).  `outcomes`
is the oracle for the per-provider `medicalComplete` calls on the providers
that survived the `getProvider` filter; a rejected promise maps to `null`
and is filtered out, and the call only throws when the provider list is
empty or every provider failed. -/
def multiModelReasoning (outcomes : List (Except String RespEntry)) :
    Except String MMResult :=
  if outcomes.length = 0 then
    .error "No enabled providers available for multi-model reasoning"
  else
    match outcomes.filterMap (fun o => o.toOption) with
    | [] => .error "All providers failed during multi-model reasoning"
    | r :: rest =>
        .ok { responses := r :: rest
              consensus := analyzeConsensus (r :: rest)
              finalResponse := createFinalResponse r rest (analyzeConsensus (r :: rest))
              totalCost := ((r :: rest).map fun x => x.cost).sum }

/-! ## CostTracker (lib/cost-tracking/tracker.ts)

The Prisma cost-log store is the external Cost Sink: period spends
(`getCurrentSpend`), the budget list (`getUserBudgets`) and per-insert
outcomes are oracle inputs.  Costs are exact rationals. -/

inductive Operation where
  | CHAT_COMPLETION | EMBEDDING_GENERATION | VECTOR_SEARCH | WEB_SEARCH
  | FILE_PROCESSING | MODEL_INFERENCE | API_CALL | MULTI_MODEL_REASONING
  | MEDICAL_ANALYSIS | CITATION_LOOKUP
  deriving DecidableEq, Repr

structure CostEntry where
  userId : String
  sessionId : Option String
  chatId : Option String
  operation : Operation
  provider : String
  inputCost : ℚ
  outputCost : ℚ
  totalCost : ℚ
  deriving DecidableEq, Repr

structure CostBudget where
  budgetType : String
  amount : ℚ
  alertThreshold : ℚ
  isActive : Bool
  deriving DecidableEq, Repr

structure BudgetAlert where
  budgetType : String
  currentSpend : ℚ
  percentage : ℚ
  deriving DecidableEq, Repr

inductive CostErr where
  /-- `BudgetExceededError(message, budgetAmount, projectedSpend, userId)`. -/
  | budgetExceeded (budgetAmount projectedSpend : ℚ)
  /-- `CostTrackingError('Failed to flush costs to database', ...)`. -/
  | costTracking (msg : String)
  deriving DecidableEq, Repr

/-- `CostTracker.isCriticalOperation` (tracker.ts:472). -/
def isCriticalOperation (op : Operation) : Bool :=
  op = .MODEL_INFERENCE || op = .MULTI_MODEL_REASONING || op = .MEDICAL_ANALYSIS

/-- Storage-side oracle for one `trackCost`/`flushCosts` call: the budgets
read by `getUserBudgets`, the period spends read by `getCurrentSpend`, the
`hasRecentAlert` lookup, whether the batch-level part of `flushCosts`
throws, and the per-entry outcome of `prisma.costLog.create`. -/
structure TrackerEnv where
  budgets : List CostBudget
  dailySpend : ℚ
  weeklySpend : ℚ
  monthlySpend : ℚ
  recentAlert : Bool
  batchFail : Bool
  insertOk : CostEntry → Bool

/-- The loop body of `CostTracker.checkBudgetLimits` (tracker.ts:322-353):
inactive budgets are skipped; an unknown period kind leaves
`currentSpend = 0` (the `switch` has no default); exceeding the limit
throws; crossing the alert threshold (without a recent alert) emits an
alert and the loop continues. -/
def checkBudgetLoop (env : TrackerEnv) (newCost : ℚ) :
    List CostBudget → Except CostErr (List BudgetAlert)
  | [] => .ok []
  | b :: rest =>
      if !b.isActive then checkBudgetLoop env newCost rest
      else
        let currentSpend : ℚ :=
          if b.budgetType = "daily" then env.dailySpend
          else if b.budgetType = "weekly" then env.weeklySpend
          else if b.budgetType = "monthly" then env.monthlySpend
          else 0
        let projectedSpend := currentSpend + newCost
        let percentage := projectedSpend / b.amount * 100
        if projectedSpend > b.amount then
          .error (.budgetExceeded b.amount projectedSpend)
        else
          let alerts :=
            if percentage ≥ b.alertThreshold && !env.recentAlert then
              [{ budgetType := b.budgetType, currentSpend := currentSpend
                 percentage := percentage }]
            else []
          match checkBudgetLoop env newCost rest with
          | .error e => .error e
          | .ok more => .ok (alerts ++ more)

/-- `CostTracker.checkBudgetLimits` (tracker.ts:307). -/
def checkBudgetLimits (env : TrackerEnv) (newCost : ℚ) :
    Except CostErr (List BudgetAlert) :=
  checkBudgetLoop env newCost env.budgets

/-- `CostTracker.flushCosts` (tracker.ts:379).  Returns
`(new queue, inserted entries, thrown error)`.  The dequeued batch is
restored by `unshift` only when the batch-level work throws; otherwise
entries with a blank `userId` or a non-null `chatId` are filtered out
before insertion, and an individual `create` failure is logged and
skipped. -/
def flushCosts (env : TrackerEnv) (queue : List CostEntry) :
    List CostEntry × List CostEntry × Option CostErr :=
  if queue.isEmpty then (queue, [], none)
  else if env.batchFail then
    (queue, [], some (.costTracking "Failed to flush costs to database"))
  else
    let validData := queue.filter fun c => jsTrim c.userId ≠ ""
    let safeData := validData.filter fun c => c.chatId.isNone
    ([], safeData.filter env.insertOk, none)

/-- Batch size from the constructor's `CostTrackingConfig`. -/
def batchSize : Nat := 50

/-- `CostTracker.trackCost` (tracker.ts:83) with `enabled` and
`enableBudgetTracking` true (the constructor's configuration when cost
tracking is on): enqueue, flush when the batch size is reached (a flush
failure propagates), then for critical operations run the synchronous
budget check.  Returns the new queue plus either the emitted alerts or the
thrown error. -/
def trackCost (env : TrackerEnv) (queue : List CostEntry) (entry : CostEntry) :
    List CostEntry × Except CostErr (List BudgetAlert) :=
  let q1 := queue ++ [entry]
  let flushed :=
    if q1.length ≥ batchSize then flushCosts env q1 else (q1, [], none)
  match flushed with
  | (q2, _, some e) => (q2, .error e)
  | (q2, _, none) =>
      if isCriticalOperation entry.operation then
        match checkBudgetLimits env entry.totalCost with
        | .error e => (q2, .error e)
        | .ok alerts => (q2, .ok alerts)
      else (q2, .ok [])

/-! ## MedicalDataService dual retrieval (medical-data-service.ts)

`queryMedicalKnowledge` awaits, inside a single `try`, the embedding, the
global-knowledge Qdrant search, the session-file Qdrant search, the
response generation and the cost tracking; the `catch` wraps any error and
rethrows it.  `generateEmbedding` (a mock) and `generateMedicalResponse`
(which catches its own failures and falls back) cannot throw, so the
fallible awaits are the two partition searches (`QdrantService.
searchKnowledge` / `searchFiles` rethrow their client errors) and
`costTracker.trackCost`. -/

structure SearchHit where
  id : String
  score : ℚ
  title : Option String
  content : String
  trustScore : Option ℚ
  deriving DecidableEq, Repr

structure MedicalCitation where
  id : String
  title : String
  source : String
  relevanceScore : ℚ
  trustScore : ℚ
  deriving DecidableEq, Repr

structure MedicalQueryRequest where
  query : String
  userId : String
  sessionId : String
  useGlobalKnowledge : Option Bool
  useSessionDocuments : Option Bool
  deriving DecidableEq, Repr

structure MedicalQueryResponse where
  globalMatches : List SearchHit
  sessionMatches : List SearchHit
  combinedResponse : String
  confidence : ℚ
  citations : List MedicalCitation
  deriving DecidableEq, Repr

/-- Oracle for one `queryMedicalKnowledge` call: outcomes of the two Qdrant
partition searches, the generated response text, and the cost-tracking
call. -/
structure MedEnv where
  knowledge : Except String (List SearchHit)
  files : Except String (List SearchHit)
  genContent : String
  track : Except String Unit

/-- `MedicalDataService.createMedicalCitations` (medical-data-service.ts:587). -/
def createMedicalCitations (globalMatches sessionMatches : List SearchHit) :
    List MedicalCitation :=
  (globalMatches.enum.map fun p =>
    { id := "global-" ++ toString p.1
      title := p.2.title.getD "Medical Knowledge"
      source := "Medical Database"
      relevanceScore := p.2.score
      trustScore := jsOrQ p.2.trustScore 0.8 }) ++
  (sessionMatches.enum.map fun p =>
    { id := "session-" ++ toString p.1
      title := p.2.title.getD "Uploaded Document"
      source := "User Document"
      relevanceScore := p.2.score
      trustScore := 0.9 })

/-- `MedicalDataService.calculateResponseConfidence` (medical-data-service.ts:623). -/
def calculateResponseConfidence (globalMatches sessionMatches : List SearchHit) : ℚ :=
  if globalMatches.length = 0 && sessionMatches.length = 0 then 0.3
  else
    let allMatches := globalMatches ++ sessionMatches
    let averageScore := (allMatches.map fun m => m.score).sum / (allMatches.length : ℚ)
    let diversityBonus : ℚ :=
      if globalMatches.length > 0 && sessionMatches.length > 0 then 0.1 else 0
    min 0.95 (averageScore + diversityBonus)

/-- The `catch` of `queryMedicalKnowledge`: wrap and rethrow. -/
def wrapMedErr (r : Except String MedicalQueryResponse) :
    Except String MedicalQueryResponse :=
  match r with
  | .error e => .error ("Failed to query medical knowledge: " ++ e)
  | .ok x => .ok x

/-- `MedicalDataService.queryMedicalKnowledge` (medical-data-service.ts:279). -/
def queryMedicalKnowledge (env : MedEnv) (req : MedicalQueryRequest) :
    Except String MedicalQueryResponse :=
  wrapMedErr
    (match (if req.useGlobalKnowledge ≠ some false then env.knowledge else .ok []) with
     | .error e => .error e
     | .ok globalMatches =>
         match (if req.useSessionDocuments ≠ some false then env.files else .ok []) with
         | .error e => .error e
         | .ok sessionMatches =>
             match env.track with
             | .error e => .error e
             | .ok _ =>
                 .ok { globalMatches := globalMatches
                       sessionMatches := sessionMatches
                       combinedResponse := env.genContent
                       confidence := calculateResponseConfidence globalMatches sessionMatches
                       citations := createMedicalCitations globalMatches sessionMatches })

/-! ## DoctorGPTWorkflow (doctor-gpt-workflow.ts)

The LangGraph `StateGraph` built by `buildGraph` has conditional edges only
out of `query_analysis` and `document_retrieval`; every other node has a
fixed `addEdge`, so the `nextNode` value written by a node does NOT drive
the graph.  `run` below hand-compiles exactly the edges of `buildGraph`
(lines 79-108) and additionally returns the list of nodes visited.

All channels in the `Annotation.Root` state are last-value-wins, so a
node's partial update simply overwrites the channels it mentions; the
free-form `metadata` bag is flattened to the claim-relevant keys
(`validationMetrics`, `validationIssues`, `fallbackUsed`,
`totalWorkflowCost`). -/

structure UploadedDoc where
  id : String
  fileName : String
  content : Option String
  extractedText : Option String
  deriving DecidableEq, Repr

structure RetrievedDoc where
  id : String
  fileName : String
  content : Option String
  source : String
  relevanceScore : ℚ
  deriving DecidableEq, Repr

structure MedicalEntity where
  text : String
  entityKind : String
  confidence : ℚ
  deriving DecidableEq, Repr

structure QueryIntent where
  intentKind : String
  confidence : ℚ
  deriving DecidableEq, Repr

structure ProcessedQuery where
  originalQuery : String
  enhancedQuery : String
  intent : QueryIntent
  medicalEntities : List MedicalEntity
  urgencyLevel : String
  requiresCitation : Bool
  suggestedSearchTerms : List String
  deriving DecidableEq, Repr

structure WorkflowError where
  node : String
  errMsg : String
  retryable : Bool
  deriving DecidableEq, Repr

structure ValidationIssue where
  issueKind : String
  severity : String
  description : String
  deriving DecidableEq, Repr

structure ValidationMetrics where
  factualAccuracy : ℚ
  citationQuality : ℚ
  medicalSafety : ℚ
  completeness : ℚ
  deriving DecidableEq, Repr

/-- The workflow's `finalResponse` channel value.  Unlike a provider's
`MedicalResponse`, `content`/`confidence` may be absent because
`citationEnhancementNode` spreads `{...state.finalResponse!}` even when
`finalResponse` is `undefined`, which in JavaScript yields an object with
none of the response fields (list fields are modelled as `[]`; no consumer
distinguishes a missing list from an empty one). -/
structure WFResp where
  content : Option String
  confidence : Option ℚ
  citations : List Citation
  recommendedActions : List String
  medicalDisclaimer : Option String
  providersUsed : List String
  consensusReached : Bool
  deriving DecidableEq, Repr

def toWFResp (r : ProviderResp) : WFResp :=
  { content := some r.content, confidence := r.confidence
    citations := r.citations, recommendedActions := r.recommendedActions
    medicalDisclaimer := r.medicalDisclaimer, providersUsed := r.providersUsed
    consensusReached := r.consensusReached }

/-- `ModelResponseEntry` built in `multiModelReasoningNode`
(`confidence: response.confidence || 0.8`). -/
structure WFModelEntry where
  provider : String
  response : ProviderResp
  responseTime : ℚ
  cost : ℚ
  confidence : ℚ
  deriving DecidableEq, Repr

/-- A Tavily result as produced by `performSearch` (which itself never
throws: parse and transport failures fall back to the mock result list). -/
structure RawResult where
  title : String
  url : String
  content : String
  /-- Result of `new URL(url).hostname` for `url`. -/
  host : Option String
  score : ℚ
  deriving DecidableEq, Repr

structure WFState where
  userQuery : String
  uploadedDocuments : Option (List UploadedDoc)
  processedQuery : Option ProcessedQuery
  retrievedDocuments : Option (List RetrievedDoc)
  searchResults : Option (List RawResult)
  citations : Option (List Citation)
  modelResponses : Option (List WFModelEntry)
  finalResponse : Option WFResp
  confidence : Option ℚ
  currentNode : String
  nextNode : Option String
  errors : List WorkflowError
  validationMetrics : Option ValidationMetrics
  validationIssues : Option (List ValidationIssue)
  fallbackUsed : Bool
  totalWorkflowCost : Option ℚ
  deriving DecidableEq, Repr

/-- Oracle for one workflow execution: the raw Tavily results, whether
`trackWebSearch` throws inside `searchMedical`, the per-provider outcomes
for `multiModelReasoning`, and whether `trackCost` throws in
`costTrackingNode`. -/
structure WFEnv where
  webSearchRaw : List RawResult
  webTrackFail : Bool
  providerOutcomes : List (Except String RespEntry)
  costTrackFail : Bool

/-! ### Query Analyzer helpers (doctor-gpt-workflow.ts:624-706) -/

def enhanceQuery (query : String) : String :=
  query ++ " medical evidence clinical guidelines"

def detectIntent (query : String) : QueryIntent :=
  let lower := jsToLower query
  if jsIncludes lower "symptom" then { intentKind := "symptom_inquiry", confidence := 0.8 }
  else if jsIncludes lower "medication" || jsIncludes lower "drug" then
    { intentKind := "medication_question", confidence := 0.8 }
  else if jsIncludes lower "treatment" then
    { intentKind := "treatment_options", confidence := 0.8 }
  else { intentKind := "general_medical", confidence := 0.6 }

def symptomTerms : List String := ["pain", "fever", "headache", "nausea", "fatigue"]

def conditionTerms : List String := ["diabetes", "hypertension", "covid", "flu", "cancer"]

def extractMedicalEntities (query : String) : List MedicalEntity :=
  let lower := jsToLower query
  (symptomTerms.filter fun t => jsIncludes lower t).map
      (fun t => { text := t, entityKind := "symptom", confidence := 0.8 }) ++
  (conditionTerms.filter fun t => jsIncludes lower t).map
      (fun t => { text := t, entityKind := "condition", confidence := 0.8 })

def urgentTerms : List String :=
  ["emergency", "urgent", "severe", "acute", "chest pain", "difficulty breathing"]

def highTerms : List String := ["pain", "severe", "worsening"]

/-- `assessUrgency` (the `entities` parameter is unused in the source). -/
def assessUrgency (query : String) (_entities : List MedicalEntity) : String :=
  let lower := jsToLower query
  if urgentTerms.any (fun t => jsIncludes lower t) then "emergency"
  else if highTerms.any (fun t => jsIncludes lower t) then "high"
  else "medium"

def requiresCitation (intent : QueryIntent) : Bool :=
  ["treatment_options", "medication_question", "diagnosis_explanation"].contains
    intent.intentKind

/-- `intent.type.replace('_', ' ')` replaces the first occurrence; every
intent kind contains at most one underscore, so `String.replace` agrees. -/
def generateSearchTerms (entities : List MedicalEntity) (intent : QueryIntent) :
    List String :=
  (entities.map fun e => e.text) ++ [intent.intentKind.replace "_" " "]

def determineNextNodeAfterAnalysis (pq : ProcessedQuery) : String :=
  if pq.urgencyLevel = "emergency" then "multi_model_reasoning"
  else "document_retrieval"

def determineNextNodeAfterRetrieval (pq : ProcessedQuery)
    (documents : List RetrievedDoc) : String :=
  if documents.length = 0 || pq.requiresCitation then "web_search"
  else "multi_model_reasoning"

/-! ### Routing functions (doctor-gpt-workflow.ts:610-621) -/

def jsDocsPresent (docs : Option (List UploadedDoc)) : Bool :=
  match docs with
  | none => false
  | some l => l.length > 0

def pqRequiresCitation (s : WFState) : Bool :=
  match s.processedQuery with
  | none => false
  | some pq => pq.requiresCitation

def routeAfterQueryAnalysis (s : WFState) : String :=
  if s.errors.length > 0 then "error"
  else if jsDocsPresent s.uploadedDocuments then "document_retrieval"
  else if pqRequiresCitation s then "web_search"
  else "multi_model_reasoning"

def routeAfterDocumentRetrieval (s : WFState) : String :=
  if s.errors.length > 0 then "error"
  else if pqRequiresCitation s then "web_search"
  else "multi_model_reasoning"

/-! ### Tavily search pipeline used by the web-search node -/

/-- Scoring map of `filterMedicalResults`
(`score: result.score * getSourceReliabilityScore(result.url)`); throws on
an unparsable URL (never reached after the trusted-domain filter). -/
def scoreAll : List RawResult → Except String (List RawResult)
  | [] => .ok []
  | r :: rest =>
      match getSourceReliabilityScore r.host with
      | none => .error "Invalid URL"
      | some rel =>
          match scoreAll rest with
          | .error e => .error e
          | .ok rest' => .ok ({ r with score := r.score * rel } :: rest')

/-- Descending insertion by score.  The source uses
`sort((a, b) => b.score - a.score)`; only the element multiset of the
sorted list is relied upon downstream. -/
def insertByScore (r : RawResult) : List RawResult → List RawResult
  | [] => [r]
  | x :: xs => if x.score < r.score then r :: x :: xs else x :: insertByScore r xs

def sortByScoreDesc (rs : List RawResult) : List RawResult :=
  rs.foldr insertByScore []

/-- `TavilySearchService.filterMedicalResults` (tavily.ts:479): drop
results missing a field, keep trusted domains, rescale by reliability,
sort descending, truncate to 10. -/
def filterMedicalResults (rs : List RawResult) : Except String (List RawResult) :=
  match scoreAll ((rs.filter fun r =>
      r.url ≠ "" && r.title ≠ "" && r.content ≠ "").filter
        fun r => isTrustedMedicalDomain r.host) with
  | .error e => .error e
  | .ok scored => .ok ((sortByScoreDesc scored).take 10)

/-- `TavilySearchService.searchMedical` (tavily.ts:120): filters/rescales
the raw results, then tracks the search cost; any throw is wrapped as
`Medical search failed: ...` by the method's catch. -/
def searchMedical (raw : List RawResult) (trackFail : Bool) :
    Except String (List RawResult) :=
  match filterMedicalResults raw with
  | .error e => .error ("Medical search failed: " ++ e)
  | .ok filtered =>
      if trackFail then
        .error "Medical search failed: Failed to flush costs to database"
      else .ok filtered

/-- `TavilySearchService.convertToCitations` (tavily.ts:297): the map over
`(result, index)` written as a recursion carrying the index. -/
def convertToCitationsFrom (i : Nat) : List RawResult → List Citation
  | [] => []
  | r :: rest =>
      { id := "tavily-" ++ toString i, title := r.title, url := r.url
        host := r.host, relevanceScore := some r.score } ::
        convertToCitationsFrom (i + 1) rest

def convertToCitations (results : List RawResult) : List Citation :=
  convertToCitationsFrom 0 results

/-! ### Workflow nodes (doctor-gpt-workflow.ts:159-607)

Each node models the `try` body of the source method; where the body can
throw, the node's `catch` branch appends the tagged `WorkflowError` and
sets the (advisory) `nextNode`, exactly as in the source. -/

/-- `queryAnalysisNode`: the body only runs total string scans, so its
catch branch is dead code. -/
def queryAnalysisNode (s : WFState) : WFState :=
  let intent := detectIntent s.userQuery
  let entities := extractMedicalEntities s.userQuery
  let pq : ProcessedQuery :=
    { originalQuery := s.userQuery
      enhancedQuery := enhanceQuery s.userQuery
      intent := intent
      medicalEntities := entities
      urgencyLevel := assessUrgency s.userQuery entities
      requiresCitation := requiresCitation intent
      suggestedSearchTerms := generateSearchTerms entities intent }
  { s with processedQuery := some pq
           currentNode := "query_analysis"
           nextNode := some (determineNextNodeAfterAnalysis pq) }

def uploadedToRetrieved (d : UploadedDoc) : RetrievedDoc :=
  { id := d.id, fileName := d.fileName
    content := jsOrStrOpt d.content d.extractedText
    source := "uploaded", relevanceScore := 1 }

/-- `documentRetrievalNode`: uploaded documents are taken as pre-retrieved
with relevance 1.0; otherwise `performVectorSearch`, a placeholder that
returns `[]`. -/
def documentRetrievalNode (s : WFState) : WFState :=
  match s.processedQuery with
  | none =>
      { s with currentNode := "document_retrieval"
               nextNode := some "error_handler"
               errors := s.errors ++
                 [{ node := "document_retrieval"
                    errMsg := "Processed query not available", retryable := true }] }
  | some pq =>
      let docs : List RetrievedDoc :=
        match s.uploadedDocuments with
        | some l => if l.length > 0 then l.map uploadedToRetrieved else []
        | none => []
      { s with retrievedDocuments := some docs
               currentNode := "document_retrieval"
               nextNode := some (determineNextNodeAfterRetrieval pq docs) }

def webSearchNode (env : WFEnv) (s : WFState) : WFState :=
  match s.processedQuery with
  | none =>
      { s with currentNode := "web_search"
               nextNode := some "error_handler"
               errors := s.errors ++
                 [{ node := "web_search"
                    errMsg := "Processed query not available", retryable := true }] }
  | some _ =>
      match searchMedical env.webSearchRaw env.webTrackFail with
      | .error e =>
          { s with currentNode := "web_search"
                   nextNode := some "error_handler"
                   errors := s.errors ++
                     [{ node := "web_search", errMsg := e, retryable := true }] }
      | .ok results =>
          { s with searchResults := some results
                   citations := some (convertToCitations results)
                   currentNode := "web_search"
                   nextNode := some "multi_model_reasoning" }

def multiModelReasoningNode (env : WFEnv) (s : WFState) : WFState :=
  match s.processedQuery with
  | none =>
      { s with currentNode := "multi_model_reasoning"
               nextNode := some "error_handler"
               errors := s.errors ++
                 [{ node := "multi_model_reasoning"
                    errMsg := "Processed query not available", retryable := true }] }
  | some _ =>
      match multiModelReasoning env.providerOutcomes with
      | .error e =>
          { s with currentNode := "multi_model_reasoning"
                   nextNode := some "error_handler"
                   errors := s.errors ++
                     [{ node := "multi_model_reasoning", errMsg := e
                        retryable := true }] }
      | .ok res =>
          { s with modelResponses := some (res.responses.map fun r =>
                     { provider := r.provider, response := r.response
                       responseTime := r.responseTime, cost := r.cost
                       confidence := jsOrQ r.response.confidence 0.8 })
                   finalResponse := some (toWFResp res.finalResponse)
                   currentNode := "multi_model_reasoning"
                   nextNode := some "response_validation" }

/-- `validateMedicalResponse` (doctor-gpt-workflow.ts:734). -/
def validateMedicalResponse (content : String) : List ValidationIssue :=
  if jsIncludes (jsToLower content) "diagnose" ||
     jsIncludes (jsToLower content) "diagnosis" then
    [{ issueKind := "safety", severity := "high"
       description := "Response appears to provide medical diagnosis" }]
  else []

def calculateFactualAccuracy (citations : List Citation) : ℚ :=
  if citations.length > 0 then 0.9 else 0.6

def calculateMedicalSafety (issues : List ValidationIssue) : ℚ :=
  let criticalIssues := (issues.filter fun i => i.severity = "critical").length
  let highIssues := (issues.filter fun i => i.severity = "high").length
  if criticalIssues > 0 then 0.2
  else if highIssues > 0 then 0.6
  else 0.9

def calculateCompleteness (content originalQuery : String) : ℚ :=
  if content.length < originalQuery.length * 2 then 0.5
  else if content.length < originalQuery.length * 5 then 0.7
  else 0.9

/-- `responseValidationNode`: throws when `finalResponse`/`modelResponses`
are missing, when the response has no `content` string (the
`content.toLowerCase()` TypeError), or when a citation URL fails to parse
inside `calculateCitationQuality`; the catch tags these non-retryable. -/
def responseValidationNode (s : WFState) : WFState :=
  let failWith (msg : String) : WFState :=
    { s with currentNode := "response_validation"
             nextNode := some "error_handler"
             errors := s.errors ++
               [{ node := "response_validation", errMsg := msg
                  retryable := false }] }
  match s.finalResponse, s.modelResponses with
  | some fr, some _ =>
      match fr.content with
      | none => failWith "Cannot read properties of undefined"
      | some content =>
          let issues := validateMedicalResponse content
          match calculateCitationQuality (s.citations.getD []) with
          | .error e => failWith e
          | .ok cq =>
              { s with currentNode := "response_validation"
                       nextNode := some "citation_enhancement"
                       validationMetrics := some
                         { factualAccuracy :=
                             calculateFactualAccuracy (s.citations.getD [])
                           citationQuality := cq
                           medicalSafety := calculateMedicalSafety issues
                           completeness :=
                             calculateCompleteness content s.userQuery }
                       validationIssues := some issues }
  | _, _ => failWith "Response data not available for validation"

/-- `citationEnhancementNode`: on success overwrites `finalResponse` with
`{...state.finalResponse!, citations}` — when `finalResponse` is
`undefined` the spread produces an object carrying only the citations; on
failure the workflow continues to `quality_check` without touching
`finalResponse`. -/
def citationEnhancementNode (s : WFState) : WFState :=
  match enhanceCitations (s.citations.getD []) with
  | .error e =>
      { s with currentNode := "citation_enhancement"
               nextNode := some "quality_check"
               errors := s.errors ++
                 [{ node := "citation_enhancement", errMsg := e
                    retryable := false }] }
  | .ok enhanced =>
      let fr : WFResp :=
        match s.finalResponse with
        | some r => { r with citations := enhanced }
        | none =>
            { content := none, confidence := none, citations := enhanced
              recommendedActions := [], medicalDisclaimer := none
              providersUsed := [], consensusReached := false }
      { s with citations := some enhanced
               finalResponse := some fr
               currentNode := "citation_enhancement"
               nextNode := some "quality_check" }

/-- `calculateQualityScore` (doctor-gpt-workflow.ts:796). -/
def calculateQualityScore (s : WFState) : ℚ :=
  match s.validationMetrics with
  | none => 0.5
  | some m =>
      (m.factualAccuracy + m.citationQuality + m.medicalSafety +
        m.completeness) / 4

/-- `qualityCheckNode`: total (its helpers only compare rationals). -/
def qualityCheckNode (s : WFState) : WFState :=
  { s with currentNode := "quality_check"
           nextNode := some "cost_tracking"
           confidence := some (calculateQualityScore s) }

def calculateTotalWorkflowCost (s : WFState) : ℚ :=
  ((s.modelResponses.getD []).map fun r => r.cost).sum + 0.001

/-- `costTrackingNode`: the workflow ends even if `trackCost` throws
(budget-exceeded or flush failure). -/
def costTrackingNode (env : WFEnv) (s : WFState) : WFState :=
  if env.costTrackFail then
    { s with currentNode := "cost_tracking"
             nextNode := some "end"
             errors := s.errors ++
               [{ node := "cost_tracking", errMsg := "Cost tracking failed"
                  retryable := false }] }
  else
    { s with currentNode := "cost_tracking"
             nextNode := some "end"
             totalWorkflowCost := some (calculateTotalWorkflowCost s) }

/-- The fixed fallback `MedicalResponse` synthesized by `errorHandlerNode`. -/
def fallbackResponse : WFResp :=
  { content := some "I apologize, but I encountered an issue processing your medical query. Please try rephrasing your question or consult with a healthcare professional for immediate assistance."
    confidence := some 0.1
    citations := []
    recommendedActions := []
    medicalDisclaimer := some "This is a system error response. Please consult a healthcare professional for medical advice."
    providersUsed := []
    consensusReached := false }

/-- `errorHandlerNode`: `summarizeErrors` is total, so the fallback is
always installed and `metadata.fallbackUsed` set. -/
def errorHandlerNode (s : WFState) : WFState :=
  { s with finalResponse := some fallbackResponse
           currentNode := "error_handler"
           nextNode := some "end"
           fallbackUsed := true }

/-! ### Graph execution -/

/-- The channels `execute` seeds from its defaults and the API route's
`workflowState` (`userQuery`, `uploadedDocuments`; `currentNode: 'start'`,
`errors: []`, everything else unset). -/
structure WFRequest where
  userQuery : String
  uploadedDocuments : Option (List UploadedDoc)
  deriving DecidableEq, Repr

def initState (req : WFRequest) : WFState :=
  { userQuery := req.userQuery
    uploadedDocuments := req.uploadedDocuments
    processedQuery := none, retrievedDocuments := none
    searchResults := none, citations := none, modelResponses := none
    finalResponse := none, confidence := none
    currentNode := "start", nextNode := none
    errors := [], validationMetrics := none, validationIssues := none
    fallbackUsed := false, totalWorkflowCost := none }

/-- The unconditional suffix
`multi_model_reasoning → response_validation → citation_enhancement →
quality_check → cost_tracking → END` of `buildGraph`. -/
def reasoningTail (env : WFEnv) (s : WFState) : WFState :=
  costTrackingNode env
    (qualityCheckNode
      (citationEnhancementNode
        (responseValidationNode
          (multiModelReasoningNode env s))))

def reasoningTrace : List String :=
  ["multi_model_reasoning", "response_validation", "citation_enhancement",
   "quality_check", "cost_tracking"]

/-- `DoctorGPTWorkflow.execute`/`graph.invoke`: a hand-compilation of the
edges declared in `buildGraph` (doctor-gpt-workflow.ts:79-108).  Returns
the final state and the ordered list of executed nodes. -/
def run (env : WFEnv) (req : WFRequest) : WFState × List String :=
  let s1 := queryAnalysisNode (initState req)
  match routeAfterQueryAnalysis s1 with
  | "error" => (errorHandlerNode s1, ["query_analysis", "error_handler"])
  | "document_retrieval" =>
      let s2 := documentRetrievalNode s1
      match routeAfterDocumentRetrieval s2 with
      | "error" =>
          (errorHandlerNode s2,
           ["query_analysis", "document_retrieval", "error_handler"])
      | "web_search" =>
          (reasoningTail env (webSearchNode env s2),
           ["query_analysis", "document_retrieval", "web_search"] ++ reasoningTrace)
      | _ =>
          (reasoningTail env s2,
           ["query_analysis", "document_retrieval"] ++ reasoningTrace)
  | "web_search" =>
      (reasoningTail env (webSearchNode env s1),
       ["query_analysis", "web_search"] ++ reasoningTrace)
  | _ => (reasoningTail env s1, ["query_analysis"] ++ reasoningTrace)

/-- A citation on which `enhanceOneCitation` cannot throw: its
`relevanceScore` is truthy, or its URL parses.  Every citation the workflow
itself constructs satisfies this. -/
def citationOkB (c : Citation) : Bool :=
  jsTruthyQ c.relevanceScore || c.host.isSome

/-! ## Concrete instances used by witnesses and counterexamples -/

/-- A citation whose URL string does not parse (`new URL` throws) and whose
`relevanceScore` is absent. -/
def badCitation : Citation :=
  { id := "c0", title := "broken", url := "not a url", host := none
    relevanceScore := none }

/-- A well-formed, trusted-host citation without a pre-existing score. -/
def nihCitation : Citation :=
  { id := "c1", title := "NIH overview", url := "https://www.nih.gov/health"
    host := some "www.nih.gov", relevanceScore := none }

/-- A provider answer whose text has exactly `n` characters. -/
def answerOfLength (provider : String) (n : Nat) : RespEntry :=
  { provider := provider
    response :=
      { content := String.mk (List.replicate n 'a'), confidence := some 0.8
        citations := [], recommendedActions := [], medicalDisclaimer := none
        providersUsed := [], consensusReached := false }
    cost := 0.001, responseTime := 100 }

/-- Tracker oracle for the C4 scenario: one active daily budget of $10.00
with an 80% alert threshold, $9.50 already spent today, no recent alert. -/
def budgetEnv : TrackerEnv :=
  { budgets := [{ budgetType := "daily", amount := 10, alertThreshold := 80
                  isActive := true }]
    dailySpend := 9.5, weeklySpend := 9.5, monthlySpend := 9.5
    recentAlert := false, batchFail := false, insertOk := fun _ => true }

/-- A critical (budget-checked) cost entry of the given total cost. -/
def criticalEntry (cost : ℚ) : CostEntry :=
  { userId := "user-1", sessionId := some "session-1", chatId := none
    operation := .MEDICAL_ANALYSIS, provider := "workflow"
    inputCost := 0, outputCost := cost, totalCost := cost }

/-- A cost entry carrying a non-null `chatId`. -/
def chatCostEntry : CostEntry :=
  { userId := "user-1", sessionId := some "session-1"
    chatId := some "chat-1", operation := .WEB_SEARCH, provider := "tavily"
    inputCost := 0.001, outputCost := 0, totalCost := 0.001 }

/-- Tracker oracle whose storage accepts everything. -/
def storageOkEnv : TrackerEnv :=
  { budgets := [], dailySpend := 0, weeklySpend := 0, monthlySpend := 0
    recentAlert := false, batchFail := false, insertOk := fun _ => true }

/-- Tracker oracle whose batch-level flush work throws. -/
def storageFailEnv : TrackerEnv :=
  { budgets := [], dailySpend := 0, weeklySpend := 0, monthlySpend := 0
    recentAlert := false, batchFail := true, insertOk := fun _ => true }

def dualRagRequest : MedicalQueryRequest :=
  { query := "chest pain causes", userId := "user-1"
    sessionId := "session-1", useGlobalKnowledge := some true
    useSessionDocuments := some true }

def sessionHit : SearchHit :=
  { id := "doc-1", score := 0.82, title := some "Uploaded report"
    content := "patient report content", trustScore := none }

/-- Global partition down, session partition healthy. -/
def globalDownEnv : MedEnv :=
  { knowledge := .error "Failed to search knowledge: Qdrant unavailable"
    files := .ok [sessionHit], genContent := "generated answer"
    track := .ok () }

/-- Both partitions down. -/
def bothDownEnv : MedEnv :=
  { knowledge := .error "Failed to search knowledge: Qdrant unavailable"
    files := .error "Failed to search files: Qdrant unavailable"
    genContent := "generated answer", track := .ok () }

/-- Workflow oracle in which every external call succeeds. -/
def quietEnv : WFEnv :=
  { webSearchRaw := [], webTrackFail := false
    providerOutcomes := [.ok (answerOfLength "openai" 400)]
    costTrackFail := false }

/-- Workflow oracle in which both invoked providers fail. -/
def providersDownEnv : WFEnv :=
  { webSearchRaw := [], webTrackFail := false
    providerOutcomes := [.error "openai unavailable",
                         .error "anthropic unavailable"]
    costTrackFail := false }

/-- A citation-requiring request with no caller-supplied documents. -/
def treatmentRequest : WFRequest :=
  { userQuery := "best treatment options", uploadedDocuments := none }

/-- The metformin scenario query of the spec. -/
def metforminRequest : WFRequest :=
  { userQuery := "What are the side effects of metformin?"
    uploadedDocuments := none }

/-- A keyword-free request that routes straight to reasoning. -/
def plainRequest : WFRequest :=
  { userQuery := "hello there", uploadedDocuments := none }

/-- The `ProcessedQuery` the analyzer produces for the spec's emergency
scenario query (urgency computed by the embedded `assessUrgency`). -/
def emergencyPq : ProcessedQuery :=
  { originalQuery := "I have chest pain and shortness of breath"
    enhancedQuery := enhanceQuery "I have chest pain and shortness of breath"
    intent := { intentKind := "general_medical", confidence := 0.6 }
    medicalEntities := [{ text := "pain", entityKind := "symptom", confidence := 0.8 }]
    urgencyLevel := assessUrgency "I have chest pain and shortness of breath" []
    requiresCitation := false
    suggestedSearchTerms := ["pain", "general medical"] }

/-! ## Theorems

Helper lemmas first, then one theorem per claim (with witness theorems for
claims whose statements carry hypotheses). -/

/-- Every hostname is scored, and every score lies in `[0.5, 0.95]`. -/
theorem reliability_bounds (domain : String) :
    ∃ r, getSourceReliabilityScore (some domain) = some r ∧
      (0.5 : ℚ) ≤ r ∧ r ≤ 0.95 := by
  unfold getSourceReliabilityScore
  refine ⟨_, rfl, ?_, ?_⟩ <;> split_ifs <;> norm_num

/-- A reliability score is never `0` (so it is JS-truthy). -/
theorem reliability_ne_zero {host : Option String} {r : ℚ}
    (h : getSourceReliabilityScore host = some r) : r ≠ 0 := by
  match host with
  | none => simp [getSourceReliabilityScore] at h
  | some domain =>
      obtain ⟨r', hr', h05, _⟩ := reliability_bounds domain
      rw [hr'] at h
      cases h
      intro h0
      rw [h0] at h05
      norm_num at h05

theorem enhanceOneCitation_ok {c c' : Citation}
    (h : enhanceOneCitation c = .ok c') :
    enhanceOneCitation c' = .ok c' ∧ c'.url = c.url := by
  unfold enhanceOneCitation at h ⊢
  by_cases ht : jsTruthyQ c.relevanceScore
  · rw [if_pos ht] at h
    cases h
    rw [if_pos ht]
    exact ⟨rfl, rfl⟩
  · rw [if_neg ht] at h
    cases hs : getSourceReliabilityScore c.host with
    | none => rw [hs] at h; cases h
    | some sc =>
        rw [hs] at h
        cases h
        have hne : sc ≠ 0 := reliability_ne_zero hs
        have : jsTruthyQ ({ c with relevanceScore := some sc } : Citation).relevanceScore = true := by
          simp [jsTruthyQ, hne]
        rw [if_pos this]
        exact ⟨rfl, rfl⟩

/-- **C9.**  The Citation Enhancer is idempotent: if one pass succeeds with
output `cs'`, a second pass returns `cs'` unchanged, and the citation URL
list (hence the citation set identified by URL) is exactly that of the
input. -/
theorem c9_enhance_idempotent :
    ∀ cs cs', enhanceCitations cs = .ok cs' →
      enhanceCitations cs' = .ok cs' ∧
        cs'.map (fun c => c.url) = cs.map (fun c => c.url) := by
  intro cs
  induction cs with
  | nil =>
      intro cs' h
      unfold enhanceCitations at h
      cases h
      exact ⟨rfl, rfl⟩
  | cons c rest ih =>
      intro cs' h
      unfold enhanceCitations at h
      cases h1 : enhanceOneCitation c with
      | error e => rw [h1] at h; cases h
      | ok c2 =>
          rw [h1] at h
          cases h2 : enhanceCitations rest with
          | error e => rw [h2] at h; cases h
          | ok rest2 =>
              rw [h2] at h
              cases h
              obtain ⟨hone, hurl1⟩ := enhanceOneCitation_ok h1
              obtain ⟨hrest, hurl2⟩ := ih rest2 h2
              constructor
              · unfold enhanceCitations
                rw [hone, hrest]
              · simp [hurl1, hurl2]

/-- **C9 witness.**  One concrete pass over a trusted-host citation,
with the idempotence theorem applied to its output. -/
theorem c9_enhance_idempotent_witness :
    ∃ cs', enhanceCitations [nihCitation] = .ok cs' ∧
      enhanceCitations cs' = .ok cs' ∧
      cs'.map (fun c => c.url) = [nihCitation].map (fun c => c.url) := by
  have h : enhanceCitations [nihCitation] =
      .ok [{ nihCitation with relevanceScore := some 0.9 }] := rfl
  exact ⟨_, h, (c9_enhance_idempotent _ _ h).1, (c9_enhance_idempotent _ _ h).2⟩

/-- **C10.**  For every string the platform URL parser accepts, the
domain-reliability score is defined and lies in `[0.5, 0.95]`; on a string
the parser rejects, `getSourceReliabilityScore` throws where
`isTrustedMedicalDomain` returns `false`, and both
`calculateCitationQuality` and `enhanceCitations` are partial (throw) on a
citation with such a URL and no pre-existing score. -/
theorem c10_reliability_total_on_parsed_partial_on_malformed :
    (∀ domain : String, ∃ r, getSourceReliabilityScore (some domain) = some r ∧
        (0.5 : ℚ) ≤ r ∧ r ≤ 0.95) ∧
    getSourceReliabilityScore none = none ∧
    isTrustedMedicalDomain none = false ∧
    calculateCitationQuality [badCitation] = .error "Invalid URL" ∧
    enhanceCitations [badCitation] = .error "Invalid URL" :=
  ⟨reliability_bounds, rfl, rfl, rfl, rfl⟩

/-- **C7.**  With at least two provider answers, if some answer's length
deviates from the mean length by more than 50% of that mean, the consensus
is produced and its disagreement list carries the length-variance signal
(`"Response lengths vary significantly between models"`). -/
theorem c7_length_deviation_flags_disagreement (responses : List RespEntry)
    (h2 : 2 ≤ responses.length)
    (hdev : ∃ l ∈ contentLengths (responses.map fun r => r.response.content),
      |l - avgLengthOf (responses.map fun r => r.response.content)| >
        avgLengthOf (responses.map fun r => r.response.content) * 0.5) :
    ∃ c, analyzeConsensus responses = some c ∧
      lengthSignal ∈ c.disagreements := by
  unfold analyzeConsensus
  rw [if_neg (by omega)]
  refine ⟨_, rfl, ?_⟩
  unfold findDisagreements
  obtain ⟨l, hl, hgt⟩ := hdev
  have hany : ((contentLengths (responses.map fun r => r.response.content)).any
      fun l => decide (|l - avgLengthOf (responses.map fun r => r.response.content)| >
        avgLengthOf (responses.map fun r => r.response.content) * 0.5)) = true :=
    List.any_eq_true.mpr ⟨l, hl, decide_eq_true hgt⟩
  rw [hany]
  simp

set_option maxRecDepth 8000 in
/-- **C7 witness.**  Two answers of 200 and 900 characters: the mean is
550, the deviation 350 exceeds 275, and the signal is present. -/
theorem c7_length_deviation_witness :
    ∃ c, analyzeConsensus [answerOfLength "openai" 200,
        answerOfLength "anthropic" 900] = some c ∧
      lengthSignal ∈ c.disagreements :=
  c7_length_deviation_flags_disagreement _ (by decide) (by decide)

/-- **C4.**  Against one active daily budget of $10.00 with an 80% alert
threshold and $9.50 already spent: tracking a critical $1.00 entry raises
budget-exceeded (projected $10.50 over the $10 limit), while tracking a
critical $0.40 entry succeeds and emits the 99%-of-budget alert. -/
theorem c4_budget_enforcement :
    (trackCost budgetEnv [] (criticalEntry 1)).2 =
      .error (.budgetExceeded 10 10.5) ∧
    (trackCost budgetEnv [] (criticalEntry 0.4)).2 =
      .ok [{ budgetType := "daily", currentSpend := 9.5, percentage := 99 }] := by
  constructor <;> rfl

/-- **C6 counterexample.**  A flush that reaches storage without any
failure silently drops an entry whose `chatId` is non-null: the queue
empties, nothing is inserted, and no error is raised — the entry is lost,
so delivery is not at-least-once for every tracked entry. -/
theorem c6_counterexample_chatid_entry_dropped :
    chatCostEntry.userId = "user-1" ∧ chatCostEntry.chatId = some "chat-1" ∧
    flushCosts storageOkEnv [chatCostEntry] = ([], [], none) :=
  ⟨rfl, rfl, rfl⟩

/-- **C6 (amended).**  When the batch-level flush work throws, every
dequeued entry is placed back on the queue and the `CostTrackingError` is
raised, so nothing is lost to batch-level failures; the at-least-once
guarantee does not extend to entries with a non-null `chatId` (filtered
out before insertion) or to per-entry insert failures (logged and
skipped). -/
theorem c6_amended_batch_failure_requeues (env : TrackerEnv)
    (queue : List CostEntry) (hq : queue ≠ []) (hfail : env.batchFail = true) :
    flushCosts env queue =
      (queue, [], some (.costTracking "Failed to flush costs to database")) := by
  cases queue with
  | nil => exact absurd rfl hq
  | cons a t => simp [flushCosts, hfail]

/-- **C6 witness.** -/
theorem c6_amended_batch_failure_requeues_witness :
    flushCosts storageFailEnv [chatCostEntry] =
      ([chatCostEntry], [],
        some (.costTracking "Failed to flush costs to database")) :=
  c6_amended_batch_failure_requeues storageFailEnv [chatCostEntry]
    (by simp) rfl

/-- **C5 counterexample.**  With the global-knowledge partition failing and
the session partition healthy (it would return a hit), dual retrieval does
not return the session hits and does not return an empty hit list with a
recorded error: it rethrows the wrapped failure to the caller. -/
theorem c5_counterexample_partition_not_isolated :
    globalDownEnv.files = .ok [sessionHit] ∧
    queryMedicalKnowledge globalDownEnv dualRagRequest =
      .error "Failed to query medical knowledge: Failed to search knowledge: Qdrant unavailable" :=
  ⟨rfl, rfl⟩

/-- **C5 (amended).**  A global-partition failure aborts the whole dual
retrieval regardless of the session partition's health: the session query
never runs and `queryMedicalKnowledge` rethrows the wrapped error (the
result does not depend on `env.files` at all). -/
theorem c5_amended_global_failure_aborts (env : MedEnv)
    (req : MedicalQueryRequest) (e : String)
    (hflag : req.useGlobalKnowledge ≠ some false)
    (hk : env.knowledge = .error e) :
    queryMedicalKnowledge env req =
      .error ("Failed to query medical knowledge: " ++ e) := by
  unfold queryMedicalKnowledge
  rw [if_pos hflag, hk]
  rfl

/-- **C5 witness.**  Both partitions failing: the call raises rather than
returning an empty hit list. -/
theorem c5_amended_global_failure_aborts_witness :
    queryMedicalKnowledge bothDownEnv dualRagRequest =
      .error "Failed to query medical knowledge: Failed to search knowledge: Qdrant unavailable" :=
  c5_amended_global_failure_aborts bothDownEnv dualRagRequest _
    (by decide) rfl

/-- **C3 counterexample.**  For a citation-requiring query with no
caller-supplied documents, the live router sends the request to
`web_search`, not `document_retrieval`: the executed trace never visits
`document_retrieval`. -/
theorem c3_counterexample_citation_goes_to_web_search :
    pqRequiresCitation (queryAnalysisNode (initState treatmentRequest)) = true ∧
    jsDocsPresent (queryAnalysisNode (initState treatmentRequest)).uploadedDocuments = false ∧
    routeAfterQueryAnalysis (queryAnalysisNode (initState treatmentRequest)) = "web_search" ∧
    (run quietEnv treatmentRequest).2.contains "document_retrieval" = false ∧
    (run quietEnv treatmentRequest).2.contains "web_search" = true := by
  decide

/-- **C3 (amended).**  After an error-free `query_analysis`, the router
goes to `document_retrieval` exactly when caller-supplied documents exist;
with no documents it goes to `web_search` when citations are required and
otherwise straight to reasoning — classified urgency is never consulted by
the live router.  The emergency bypass exists only in
`determineNextNodeAfterAnalysis`, which computes the advisory `nextNode`
field but does not drive the compiled graph. -/
theorem c3_amended_routing (s : WFState) (hnoerr : s.errors = []) :
    (jsDocsPresent s.uploadedDocuments = true →
        routeAfterQueryAnalysis s = "document_retrieval") ∧
    (jsDocsPresent s.uploadedDocuments = false → pqRequiresCitation s = true →
        routeAfterQueryAnalysis s = "web_search") ∧
    (jsDocsPresent s.uploadedDocuments = false → pqRequiresCitation s = false →
        routeAfterQueryAnalysis s = "multi_model_reasoning") ∧
    (∀ pq : ProcessedQuery, pq.urgencyLevel = "emergency" →
        determineNextNodeAfterAnalysis pq = "multi_model_reasoning") := by
  refine ⟨fun hd => ?_, fun hd hc => ?_, fun hd hc => ?_, fun pq hu => ?_⟩
  · simp [routeAfterQueryAnalysis, hnoerr, hd]
  · simp [routeAfterQueryAnalysis, hnoerr, hd, hc]
  · simp [routeAfterQueryAnalysis, hnoerr, hd, hc]
  · simp [determineNextNodeAfterAnalysis, hu]

/-- **C3 witness.** -/
theorem c3_amended_routing_witness :
    routeAfterQueryAnalysis (queryAnalysisNode (initState treatmentRequest)) =
      "web_search" ∧
    determineNextNodeAfterAnalysis emergencyPq = "multi_model_reasoning" := by
  have h := c3_amended_routing (queryAnalysisNode (initState treatmentRequest)) rfl
  exact ⟨h.2.1 (by decide) (by decide), h.2.2.2 emergencyPq (by decide)⟩

/-- **C8 counterexample.**  The metformin query contains none of the intent
keywords (`symptom`, `medication`, `drug`, `treatment`), so the analyzer
classifies it `general_medical` with confidence 0.6 — not
`medication_question` with 0.8 — `needsCitation` is false, and the
executed trace never visits `web_search`. -/
theorem c8_counterexample_metformin_intent :
    detectIntent "What are the side effects of metformin?" =
      { intentKind := "general_medical", confidence := 0.6 } ∧
    requiresCitation (detectIntent "What are the side effects of metformin?") = false ∧
    (run quietEnv metforminRequest).2.contains "web_search" = false := by
  decide

/-- **C8 (amended).**  For the metformin query (no uploaded documents) the
analyzer yields intent `general_medical` with confidence 0.6 and
`needsCitation = false`, and — whatever the external services do — the run
goes directly from `query_analysis` to the reasoning suffix, visiting
neither `document_retrieval` nor `web_search`. -/
theorem c8_amended_metformin_routes_directly (env : WFEnv) :
    (run env metforminRequest).2 =
      ["query_analysis", "multi_model_reasoning", "response_validation",
       "citation_enhancement", "quality_check", "cost_tracking"] ∧
    ((queryAnalysisNode (initState metforminRequest)).processedQuery.map
        fun pq => pq.intent) =
      some { intentKind := "general_medical", confidence := 0.6 } ∧
    pqRequiresCitation (queryAnalysisNode (initState metforminRequest)) = false := by
  refine ⟨rfl, by decide, by decide⟩

/-! ### Lemmas tracking citations through the search pipeline (for C1/C2) -/

theorem scoreAll_host_mem :
    ∀ {rs out : List RawResult}, scoreAll rs = .ok out →
      ∀ r ∈ out, ∃ r₀ ∈ rs, r.host = r₀.host := by
  intro rs
  induction rs with
  | nil =>
      intro out h r hr
      unfold scoreAll at h
      cases h
      cases hr
  | cons a rest ih =>
      intro out h r hr
      unfold scoreAll at h
      cases hs : getSourceReliabilityScore a.host with
      | none => rw [hs] at h; cases h
      | some rel =>
          rw [hs] at h
          cases h2 : scoreAll rest with
          | error e => rw [h2] at h; cases h
          | ok rest' =>
              rw [h2] at h
              cases h
              rcases List.mem_cons.mp hr with rfl | hmem
              · exact ⟨a, List.mem_cons_self a rest, rfl⟩
              · obtain ⟨r₀, hr₀, he⟩ := ih h2 r hmem
                exact ⟨r₀, List.mem_cons_of_mem a hr₀, he⟩

theorem scoreAll_ok_of_trusted :
    ∀ {rs : List RawResult}, (∀ r ∈ rs, isTrustedMedicalDomain r.host = true) →
      ∃ out, scoreAll rs = .ok out := by
  intro rs
  induction rs with
  | nil => exact fun _ => ⟨[], rfl⟩
  | cons a rest ih =>
      intro h
      have ha := h a (List.mem_cons_self a rest)
      obtain ⟨out', hout'⟩ := ih fun r hr => h r (List.mem_cons_of_mem a hr)
      cases hh : a.host with
      | none => rw [hh] at ha; simp [isTrustedMedicalDomain] at ha
      | some d =>
          obtain ⟨val, hval, _, _⟩ := reliability_bounds d
          refine ⟨{ a with score := a.score * val } :: out', ?_⟩
          unfold scoreAll
          rw [hh, hval, hout']

theorem mem_insertByScore {x r : RawResult} :
    ∀ {l : List RawResult}, x ∈ insertByScore r l → x = r ∨ x ∈ l := by
  intro l
  induction l with
  | nil =>
      intro h
      unfold insertByScore at h
      rcases List.mem_singleton.mp h with rfl
      exact Or.inl rfl
  | cons a t ih =>
      intro h
      unfold insertByScore at h
      by_cases hlt : a.score < r.score
      · rw [if_pos hlt] at h
        rcases List.mem_cons.mp h with rfl | h2
        · exact Or.inl rfl
        · exact Or.inr h2
      · rw [if_neg hlt] at h
        rcases List.mem_cons.mp h with rfl | h2
        · exact Or.inr (List.mem_cons_self x t)
        · rcases ih h2 with rfl | h3
          · exact Or.inl rfl
          · exact Or.inr (List.mem_cons_of_mem a h3)

theorem mem_sortByScoreDesc {x : RawResult} :
    ∀ {l : List RawResult}, x ∈ sortByScoreDesc l → x ∈ l := by
  intro l
  induction l with
  | nil => intro h; cases h
  | cons a t ih =>
      intro h
      have h' : x ∈ insertByScore a (sortByScoreDesc t) := h
      rcases mem_insertByScore h' with rfl | h2
      · exact List.mem_cons_self x t
      · exact List.mem_cons_of_mem a (ih h2)

theorem filterMedicalResults_host_isSome {raw out : List RawResult}
    (h : filterMedicalResults raw = .ok out) :
    ∀ r ∈ out, r.host.isSome = true := by
  unfold filterMedicalResults at h
  cases hs : scoreAll ((raw.filter fun r =>
      r.url ≠ "" && r.title ≠ "" && r.content ≠ "").filter
        fun r => isTrustedMedicalDomain r.host) with
  | error e => rw [hs] at h; cases h
  | ok scored =>
      rw [hs] at h
      cases h
      intro r hr
      have hr2 : r ∈ sortByScoreDesc scored := List.take_subset _ _ hr
      have hr3 : r ∈ scored := mem_sortByScoreDesc hr2
      obtain ⟨r₀, hr₀, he⟩ := scoreAll_host_mem hs r hr3
      have htr : isTrustedMedicalDomain r₀.host = true :=
        (List.mem_filter.mp hr₀).2
      cases hh : r₀.host with
      | none => rw [hh] at htr; simp [isTrustedMedicalDomain] at htr
      | some d => rw [he, hh]; rfl

theorem searchMedical_ok {raw out : List RawResult} {tf : Bool}
    (h : searchMedical raw tf = .ok out) :
    filterMedicalResults raw = .ok out := by
  unfold searchMedical at h
  cases hf : filterMedicalResults raw with
  | error e => rw [hf] at h; cases h
  | ok f =>
      rw [hf] at h
      cases tf with
      | true => cases h
      | false => cases h; rfl

theorem convertToCitationsFrom_host {c : Citation} :
    ∀ {i : Nat} {rs : List RawResult}, c ∈ convertToCitationsFrom i rs →
      ∃ r ∈ rs, c.host = r.host := by
  intro i rs
  induction rs generalizing i with
  | nil => intro h; cases h
  | cons a t ih =>
      intro h
      rcases List.mem_cons.mp h with rfl | h2
      · exact ⟨a, List.mem_cons_self a t, rfl⟩
      · obtain ⟨r, hr, he⟩ := ih h2
        exact ⟨r, List.mem_cons_of_mem a hr, he⟩

theorem enhance_ok_of_all :
    ∀ {cs : List Citation}, (∀ c ∈ cs, citationOkB c = true) →
      ∃ cs', enhanceCitations cs = .ok cs' := by
  intro cs
  induction cs with
  | nil => exact fun _ => ⟨[], rfl⟩
  | cons c rest ih =>
      intro h
      obtain ⟨rest', hrest⟩ := ih fun x hx => h x (List.mem_cons_of_mem c hx)
      have hc := h c (List.mem_cons_self c rest)
      have hone : ∃ c', enhanceOneCitation c = .ok c' := by
        unfold enhanceOneCitation
        by_cases ht : jsTruthyQ c.relevanceScore
        · rw [if_pos ht]; exact ⟨c, rfl⟩
        · rw [if_neg ht]
          rcases Bool.or_eq_true_iff.mp hc with ht' | hsome
          · exact absurd ht' ht
          · cases hh : c.host with
            | none => rw [hh] at hsome; cases hsome
            | some d =>
                obtain ⟨val, hval, _, _⟩ := reliability_bounds d
                rw [hval]
                exact ⟨_, rfl⟩
      obtain ⟨c', hc'⟩ := hone
      refine ⟨c' :: rest', ?_⟩
      unfold enhanceCitations
      rw [hc', hrest]

/-! ### Node-level field lemmas -/

theorem costNode_fields (env : WFEnv) (s : WFState) :
    (costTrackingNode env s).confidence = s.confidence ∧
    (costTrackingNode env s).finalResponse = s.finalResponse ∧
    (costTrackingNode env s).fallbackUsed = s.fallbackUsed ∧
    (costTrackingNode env s).nextNode = some "end" := by
  unfold costTrackingNode
  by_cases h : env.costTrackFail = true
  · rw [if_pos h]; exact ⟨rfl, rfl, rfl, rfl⟩
  · rw [if_neg h]; exact ⟨rfl, rfl, rfl, rfl⟩

theorem qcNode_eq (s : WFState) :
    qualityCheckNode s =
      { s with currentNode := "quality_check", nextNode := some "cost_tracking"
               confidence := some (calculateQualityScore s) } := rfl

theorem rvNode_preserved (s : WFState) :
    (responseValidationNode s).citations = s.citations ∧
    (responseValidationNode s).finalResponse = s.finalResponse ∧
    (responseValidationNode s).fallbackUsed = s.fallbackUsed := by
  unfold responseValidationNode
  split
  · split
    · exact ⟨rfl, rfl, rfl⟩
    · split
      · exact ⟨rfl, rfl, rfl⟩
      · exact ⟨rfl, rfl, rfl⟩
  · exact ⟨rfl, rfl, rfl⟩

theorem rvNode_no_final (s : WFState) (h : s.finalResponse = none) :
    responseValidationNode s =
      { s with currentNode := "response_validation"
               nextNode := some "error_handler"
               errors := s.errors ++
                 [{ node := "response_validation"
                    errMsg := "Response data not available for validation"
                    retryable := false }] } := by
  unfold responseValidationNode
  rw [h]

theorem ceNode_final_isSome (s : WFState)
    (h : ∃ cs', enhanceCitations (s.citations.getD []) = .ok cs') :
    ((citationEnhancementNode s).finalResponse).isSome = true := by
  obtain ⟨cs', hok⟩ := h
  unfold citationEnhancementNode
  rw [hok]
  cases h2 : s.finalResponse <;> rfl

theorem ceNode_degenerate (s : WFState) (cs' : List Citation)
    (hf : s.finalResponse = none)
    (hok : enhanceCitations (s.citations.getD []) = .ok cs') :
    citationEnhancementNode s =
      { s with citations := some cs'
               finalResponse := some
                 { content := none, confidence := none, citations := cs'
                   recommendedActions := [], medicalDisclaimer := none
                   providersUsed := [], consensusReached := false }
               currentNode := "citation_enhancement"
               nextNode := some "quality_check" } := by
  unfold citationEnhancementNode
  rw [hok, hf]

theorem mmrNode_preserved (env : WFEnv) (s : WFState) :
    (multiModelReasoningNode env s).citations = s.citations ∧
    (multiModelReasoningNode env s).validationMetrics = s.validationMetrics ∧
    (multiModelReasoningNode env s).fallbackUsed = s.fallbackUsed := by
  unfold multiModelReasoningNode
  split
  · exact ⟨rfl, rfl, rfl⟩
  · split
    · exact ⟨rfl, rfl, rfl⟩
    · exact ⟨rfl, rfl, rfl⟩

theorem mmrNode_error_eq (env : WFEnv) (s : WFState)
    (hpq : ∃ pq, s.processedQuery = some pq) {msg : String}
    (hmm : multiModelReasoning env.providerOutcomes = .error msg) :
    multiModelReasoningNode env s =
      { s with currentNode := "multi_model_reasoning"
               nextNode := some "error_handler"
               errors := s.errors ++
                 [{ node := "multi_model_reasoning", errMsg := msg
                    retryable := true }] } := by
  obtain ⟨pq, hpq⟩ := hpq
  unfold multiModelReasoningNode
  rw [hpq, hmm]

theorem wsNode_preserved (env : WFEnv) (s : WFState) :
    (webSearchNode env s).finalResponse = s.finalResponse ∧
    (webSearchNode env s).validationMetrics = s.validationMetrics ∧
    (webSearchNode env s).fallbackUsed = s.fallbackUsed ∧
    (webSearchNode env s).processedQuery = s.processedQuery := by
  unfold webSearchNode
  split
  · exact ⟨rfl, rfl, rfl, rfl⟩
  · split
    · exact ⟨rfl, rfl, rfl, rfl⟩
    · exact ⟨rfl, rfl, rfl, rfl⟩

theorem wsNode_citations_ok (env : WFEnv) (s : WFState)
    (h : s.citations = none) :
    ∀ c ∈ (webSearchNode env s).citations.getD [], citationOkB c = true := by
  unfold webSearchNode
  cases hpq : s.processedQuery with
  | none => intro c hc; rw [h] at hc; cases hc
  | some pq =>
      cases hsm : searchMedical env.webSearchRaw env.webTrackFail with
      | error e => intro c hc; rw [h] at hc; cases hc
      | ok results =>
          intro c hc
          have hc' : c ∈ convertToCitations results := by simpa using hc
          obtain ⟨r, hr, he⟩ := convertToCitationsFrom_host hc'
          have hr2 := filterMedicalResults_host_isSome (searchMedical_ok hsm) r hr
          simp [citationOkB, he, hr2]

theorem drNode_of_some (s : WFState) (hpq : ∃ pq, s.processedQuery = some pq) :
    (documentRetrievalNode s).citations = s.citations ∧
    (documentRetrievalNode s).finalResponse = s.finalResponse ∧
    (documentRetrievalNode s).validationMetrics = s.validationMetrics ∧
    (documentRetrievalNode s).fallbackUsed = s.fallbackUsed ∧
    (documentRetrievalNode s).errors = s.errors ∧
    (documentRetrievalNode s).processedQuery = s.processedQuery := by
  obtain ⟨pq, hpq⟩ := hpq
  unfold documentRetrievalNode
  rw [hpq]
  exact ⟨rfl, rfl, rfl, rfl, rfl, rfl⟩

theorem route_qa_ne_error (s : WFState) (h : s.errors = []) :
    routeAfterQueryAnalysis s ≠ "error" := by
  unfold routeAfterQueryAnalysis
  rw [h]
  simp only [List.length_nil, gt_iff_lt, lt_self_iff_false, if_false]
  split_ifs <;> decide

theorem route_dr_ne_error (s : WFState) (h : s.errors = []) :
    routeAfterDocumentRetrieval s ≠ "error" := by
  unfold routeAfterDocumentRetrieval
  rw [h]
  simp only [List.length_nil, gt_iff_lt, lt_self_iff_false, if_false]
  split_ifs <;> decide

theorem multiModelReasoning_error_of_allFailed (outcomes : List (Except String RespEntry))
    (h : ∀ o ∈ outcomes, o.isOk = false) :
    ∃ msg, multiModelReasoning outcomes = .error msg := by
  unfold multiModelReasoning
  by_cases hlen : outcomes.length = 0
  · rw [if_pos hlen]; exact ⟨_, rfl⟩
  · rw [if_neg hlen]
    have hnil : outcomes.filterMap (fun o => o.toOption) = [] := by
      refine List.filterMap_eq_nil_iff.mpr fun o ho => ?_
      have := h o ho
      cases o with
      | error e => rfl
      | ok a => simp [Except.toBool] at this
    rw [hnil]
    exact ⟨_, rfl⟩

theorem calcq_eq_of_none (s : WFState) (h : s.validationMetrics = none) :
    calculateQualityScore s = 0.5 := by
  unfold calculateQualityScore
  rw [h]

/-! ### The reasoning suffix of the graph -/

/-- Whatever the providers and trackers do, the unconditional suffix from
`multi_model_reasoning` to `cost_tracking` installs a non-null
`finalResponse` (via the citation-enhancement spread) and marks the
terminal `nextNode := 'end'`, provided every citation in the state is one
the enhancer cannot throw on. -/
theorem reasoningTail_terminal (env : WFEnv) (s : WFState)
    (hcit : ∀ c ∈ s.citations.getD [], citationOkB c = true) :
    ((reasoningTail env s).finalResponse).isSome = true ∧
    (reasoningTail env s).nextNode = some "end" := by
  obtain ⟨hm1, _, _⟩ := mmrNode_preserved env s
  obtain ⟨hr1, _, _⟩ := rvNode_preserved (multiModelReasoningNode env s)
  have hcit2 : ∀ c ∈ ((responseValidationNode
      (multiModelReasoningNode env s)).citations).getD [],
      citationOkB c = true := by
    rw [hr1, hm1]; exact hcit
  obtain ⟨_, hc2, _, hc4⟩ := costNode_fields env
    (qualityCheckNode (citationEnhancementNode
      (responseValidationNode (multiModelReasoningNode env s))))
  constructor
  · unfold reasoningTail
    rw [hc2]
    exact ceNode_final_isSome _ (enhance_ok_of_all hcit2)
  · unfold reasoningTail
    exact hc4

/-- When every invoked provider fails, the reasoning suffix still runs to
`cost_tracking`: the request ends with confidence 0.5, no `fallbackUsed`
mark, and a degenerate final-response object without content. -/
theorem reasoningTail_providers_failed (env : WFEnv) (s : WFState)
    (hpq : ∃ pq, s.processedQuery = some pq)
    (hfail : ∀ o ∈ env.providerOutcomes, o.isOk = false)
    (hf : s.finalResponse = none) (hvm : s.validationMetrics = none)
    (hfb : s.fallbackUsed = false)
    (hcit : ∀ c ∈ s.citations.getD [], citationOkB c = true) :
    (reasoningTail env s).confidence = some 0.5 ∧
    (reasoningTail env s).fallbackUsed = false ∧
    ∃ fr, (reasoningTail env s).finalResponse = some fr ∧ fr.content = none := by
  obtain ⟨msg, hmm⟩ := multiModelReasoning_error_of_allFailed env.providerOutcomes hfail
  unfold reasoningTail
  rw [mmrNode_error_eq env s hpq hmm]
  rw [rvNode_no_final _ (by exact hf)]
  obtain ⟨cs', hok⟩ := enhance_ok_of_all hcit
  rw [ceNode_degenerate _ cs' (by exact hf) (by exact hok)]
  rw [qcNode_eq]
  obtain ⟨hcc, hcf, hcb, _⟩ := costNode_fields env _
  refine ⟨?_, ?_, ?_⟩
  · rw [hcc]
    exact congrArg some (calcq_eq_of_none _ (by exact hvm))
  · rw [hcb]
    exact hfb
  · exact ⟨{ content := none, confidence := none, citations := cs'
             recommendedActions := [], medicalDisclaimer := none
             providersUsed := [], consensusReached := false },
           by rw [hcf], rfl⟩

/-- **C1.**  Every run returns a state with a non-null `finalResponse` and
terminal marker `nextNode = 'end'`.  No node ever writes `'end'` into
`currentNode` (each node records its own name), so the claimed implication
`currentNode = 'end' → finalResponse ≠ null` holds because its conclusion
holds outright for every terminating run. -/
theorem c1_run_final_response_nonnull (env : WFEnv) (req : WFRequest) :
    ((run env req).1.finalResponse).isSome = true ∧
    (run env req).1.nextNode = some "end" := by
  simp only [run]
  split
  · exact ⟨rfl, rfl⟩
  · split
    · exact ⟨rfl, rfl⟩
    · exact reasoningTail_terminal env _ (wsNode_citations_ok env _ rfl)
    · exact reasoningTail_terminal env _ (fun c hc => absurd hc (by intro h; cases h))
  · exact reasoningTail_terminal env _ (wsNode_citations_ok env _ rfl)
  · exact reasoningTail_terminal env _ (fun c hc => absurd hc (by intro h; cases h))

/-- **C2 counterexample.**  Both providers fail, yet the run ends with
confidence 0.5 (not ≤ 0.2) and without the `fallbackUsed` mark: the
error-handler fallback is never produced for reasoning-stage failures. -/
theorem c2_counterexample_no_fallback_on_provider_failure :
    (∀ o ∈ providersDownEnv.providerOutcomes, o.isOk = false) ∧
    (run providersDownEnv plainRequest).1.confidence = some 0.5 ∧
    ¬((0.5 : ℚ) ≤ 0.2) ∧
    (run providersDownEnv plainRequest).1.fallbackUsed = false := by
  refine ⟨by decide, by decide, by norm_num, by decide⟩

/-- **C2 (amended).**  If every invoked provider fails during reasoning,
`multiModelReasoning` throws and the node records a retryable error, but
the graph's unconditional edges continue through validation, citation
enhancement, quality check and cost tracking to the end: the run returns
confidence 0.5, a final-response object with no content (only a citation
list), `fallbackUsed` is never set, and the error handler is never
visited.  The error-handler fallback (confidence 0.1, `fallbackUsed =
true`) is reachable only from the two conditional routers, i.e. for errors
recorded at `query_analysis` or `document_retrieval`. -/
theorem c2_amended_all_providers_fail (env : WFEnv) (req : WFRequest)
    (hfail : ∀ o ∈ env.providerOutcomes, o.isOk = false) :
    (run env req).1.confidence = some 0.5 ∧
    (run env req).1.fallbackUsed = false ∧
    (∃ fr, (run env req).1.finalResponse = some fr ∧ fr.content = none) ∧
    (run env req).2.contains "error_handler" = false := by
  simp only [run]
  split
  · next heq => exact absurd heq (route_qa_ne_error _ rfl)
  · split
    · next heq2 => exact absurd heq2 (route_dr_ne_error _ rfl)
    · obtain ⟨hwf, hwv, hwb, hwp⟩ := wsNode_preserved env
        (documentRetrievalNode (queryAnalysisNode (initState req)))
      have h := reasoningTail_providers_failed env _
        ⟨_, hwp.trans rfl⟩ hfail (hwf.trans rfl) (hwv.trans rfl)
        (hwb.trans rfl) (wsNode_citations_ok env _ rfl)
      exact ⟨h.1, h.2.1, h.2.2, rfl⟩
    · have h := reasoningTail_providers_failed env
        (documentRetrievalNode (queryAnalysisNode (initState req)))
        ⟨_, rfl⟩ hfail rfl rfl rfl
        (fun c hc => absurd hc (by intro h; cases h))
      exact ⟨h.1, h.2.1, h.2.2, rfl⟩
  · obtain ⟨hwf, hwv, hwb, hwp⟩ := wsNode_preserved env
      (queryAnalysisNode (initState req))
    have h := reasoningTail_providers_failed env _
      ⟨_, hwp.trans rfl⟩ hfail (hwf.trans rfl) (hwv.trans rfl)
      (hwb.trans rfl) (wsNode_citations_ok env _ rfl)
    exact ⟨h.1, h.2.1, h.2.2, rfl⟩
  · have h := reasoningTail_providers_failed env
      (queryAnalysisNode (initState req))
      ⟨_, rfl⟩ hfail rfl rfl rfl
      (fun c hc => absurd hc (by intro h; cases h))
    exact ⟨h.1, h.2.1, h.2.2, rfl⟩

/-- **C2 witness.** -/
theorem c2_amended_all_providers_fail_witness :
    (run providersDownEnv plainRequest).1.confidence = some 0.5 ∧
    (run providersDownEnv plainRequest).1.fallbackUsed = false ∧
    (∃ fr, (run providersDownEnv plainRequest).1.finalResponse = some fr ∧
      fr.content = none) ∧
    (run providersDownEnv plainRequest).2.contains "error_handler" = false :=
  c2_amended_all_providers_fail providersDownEnv plainRequest (by decide)

end DoctorGPT
